import Mathlib

/-!
Verification of the jobheist analysis pipeline (`src/ats.ts`).

The TypeScript source is shallowly embedded: every collaborator outcome
(PDF parse, Firecrawl scrape, AI token stream, AI object stream, AI
single-shot generation) is an input supplied through an `Env` record, and
the pipeline functions (`scrape`, `analyze`, `analyzeStream`, `ats`,
`atsStream`, `render`) are translated as pure Lean functions over those
inputs.  Progress callbacks are modelled by returning the list of
`ProgressUpdate` values delivered to `onProgress`, in delivery order, and
side-effecting collaborator calls by a list of `Op` values, in call order.
JavaScript truthiness of optional strings (`undefined`/`""` are falsy) is
modelled explicitly by `truthyStr`.  JavaScript numbers in the `Score`
record are modelled as `Int`: every numeric operation the code performs on
them (subtraction, `>=` comparisons, printing) is exact on integers.
-/

namespace Jobheist

/-- JavaScript truthiness of an optional string value: `undefined` and the
empty string are falsy, every other string is truthy. -/
def truthyStr : Option String → Bool
  | none => false
  | some s => s ≠ ""

/-- JavaScript `a || b` where `a` is an optional string and `b` a string:
returns `a`'s value when truthy, otherwise `b`. -/
def orStr (a : Option String) (b : String) : String :=
  if truthyStr a then a.getD "" else b

/-- JavaScript `a || b` on two optional strings (used for credential
resolution: `options.firecrawlKey || process.env.FIRECRAWL_API_KEY`). -/
def resolveKey (explicitKey envKey : Option String) : Option String :=
  if truthyStr explicitKey then explicitKey else envKey

/-- JavaScript `String.prototype.includes` on unpacked characters. -/
def listContainsSub (needle : List Char) : List Char → Bool
  | [] => needle.isEmpty
  | c :: cs => needle.isPrefixOf (c :: cs) || listContainsSub needle cs

/-- JavaScript `q.includes(tech)`: substring containment. -/
def strIncludes (q tech : String) : Bool :=
  listContainsSub tech.data q.data

/-- `interface Resume` of `src/ats.ts`: text plus best-effort contact fields. -/
structure Resume where
  text : String
  name : Option String
  email : Option String
  phone : Option String
deriving DecidableEq

/-- The structured extraction the Firecrawl collaborator actually returns
(the fields `scrape` reads off `res.json`: `jobTitle`, `companyName`,
`qualifications`, `responsibilities`, `jobDescription`); each may be
absent. -/
structure Extraction where
  jobTitle : Option String
  companyName : Option String
  qualifications : Option (List String)
  responsibilities : Option (List String)
  jobDescription : Option String
deriving DecidableEq

/-- The value `firecrawl.scrape` resolves with: an optional structured
extraction (`res.json`), an optional markdown rendering (`res.markdown`)
and an optional raw html rendering (`res.html`). -/
structure ScrapeResponse where
  json : Option Extraction
  markdown : Option String
  html : Option String
deriving DecidableEq

/-- `type Job` of `src/ats.ts`: the schema fields plus `text` and `url`. -/
structure Job where
  text : String
  url : String
  title : String
  company : String
  requiredSkills : List String
  mustHaveRequirements : List String
  niceToHave : List String
  keyResponsibilities : List String
  technologies : List String
  keywords : List String
  experienceYears : Option Int
deriving DecidableEq

/-- The hard-coded keyword list of `scrape`'s technology extraction. -/
def techKeywords : List String := ["React", "TypeScript", "Tailwind", "Figma"]

/-- The technology-extraction loop of `scrape`: when `json.qualifications`
is present (JavaScript object truthiness: any array, even empty, is
truthy), push each keyword of `techKeywords` contained in some
qualification string, in `techKeywords` order. -/
def extractTechnologies (qualifications : Option (List String)) : List String :=
  match qualifications with
  | none => []
  | some qs => techKeywords.filter fun tech => qs.any fun q => strIncludes q tech

/-- The message of the error `scrape` throws when no usable content came
back. -/
def scrapeFailureMsg : String := "Failed to scrape job posting"

/-- The empty object `{}` that `const json = res.json || \x7b\x7d` falls
back to. -/
def emptyExtraction : Extraction :=
  { jobTitle := none, companyName := none, qualifications := none
    responsibilities := none, jobDescription := none }

/-- `scrape` of `src/ats.ts`, with the network call factored out: the pure
mapping from the Firecrawl response to a `Job`, or the thrown error.
Mirrors `if (!res.json && !res.markdown) throw ...` (JavaScript
truthiness: an object is truthy when present, a string when nonempty) and
the field-by-field defaulting of the returned record. -/
def scrape (url : String) (res : ScrapeResponse) : Except String Job :=
  if !res.json.isSome && !truthyStr res.markdown then
    .error scrapeFailureMsg
  else
    let json := res.json.getD emptyExtraction
    .ok
      { text := orStr res.markdown (orStr json.jobDescription (orStr res.html ""))
        url := url
        title := orStr json.jobTitle "Unknown Position"
        company := orStr json.companyName "Unknown Company"
        requiredSkills := json.qualifications.getD []
        mustHaveRequirements := json.qualifications.getD []
        niceToHave := []
        keyResponsibilities := json.responsibilities.getD []
        technologies := extractTechnologies json.qualifications
        keywords := []
        experienceYears := none }

/-- `verbosity` values of `interface Config`. -/
inductive Verbosity
  | low
  | medium
  | high
deriving DecidableEq

/-- `reasoning` values of `interface Config`. -/
inductive Reasoning
  | none
  | auto
  | detailed
deriving DecidableEq

/-- `interface Config`: all fields optional. -/
structure Config where
  model : Option String
  verbosity : Option Verbosity
  reasoning : Option Reasoning
deriving DecidableEq

/-- `Required<Config>`: a fully populated configuration. -/
structure ConfigR where
  model : String
  verbosity : Verbosity
  reasoning : Reasoning
deriving DecidableEq

/-- `const defaults: Required<Config>` of `src/ats.ts`. -/
def defaults : ConfigR :=
  { model := "gpt-5-mini", verbosity := .low, reasoning := .none }

/-- The spread merge `{ ...defaults, ...config }`. -/
def mergeConfig (config : Config) : ConfigR :=
  { model := config.model.getD defaults.model
    verbosity := config.verbosity.getD defaults.verbosity
    reasoning := config.reasoning.getD defaults.reasoning }

/-- A `Required<Config>` read back as a `Config` (spreading a fully
populated object). -/
def ConfigR.toConfig (c : ConfigR) : Config :=
  { model := some c.model, verbosity := some c.verbosity
    reasoning := some c.reasoning }

/-- Entries of `keywordAnalysis.strongMatches`. -/
structure StrongMatch where
  keyword : String
  jobFrequency : Int
  resumeFrequency : Int
deriving DecidableEq

/-- Entries of `keywordAnalysis.underRepresented`. -/
structure UnderRepresentedKeyword where
  keyword : String
  jobFrequency : Int
  resumeFrequency : Int
  suggestion : String
deriving DecidableEq

/-- Entries of `keywordAnalysis.notFound`. -/
structure NotFoundKeyword where
  keyword : String
  jobFrequency : Int
  impact : Int
  suggestion : String
deriving DecidableEq

/-- The `keywordAnalysis` component of a `Score`. -/
structure KeywordAnalysis where
  strongMatches : List StrongMatch
  underRepresented : List UnderRepresentedKeyword
  notFound : List NotFoundKeyword
deriving DecidableEq

/-- `suggestions[].type` values. -/
inductive SuggestionType
  | add
  | enhance
  | rewrite
deriving DecidableEq

/-- Entries of `suggestions`. -/
structure Suggestion where
  type : SuggestionType
  location : String
  current : Option String
  suggested : String
  impact : Int
  rationale : String
deriving DecidableEq

/-- `analysis.compatibility` of a `Score`. -/
structure Compatibility where
  current : Int
  potential : Int
deriving DecidableEq

/-- The `analysis` component of a `Score`. -/
structure RoleAnalysis where
  topPriorities : List String
  currentStrengths : List String
  opportunities : List String
  compatibility : Compatibility
deriving DecidableEq

/-- `interface Score` of `src/ats.ts`. -/
structure Score where
  score : Int
  keywordAnalysis : KeywordAnalysis
  suggestions : List Suggestion
  analysis : RoleAnalysis
  optimizations : List String
deriving DecidableEq

/-- The three output formats. -/
inductive Format
  | json
  | xml
  | markdown
deriving DecidableEq

/-- The job-context block `context(job)` shared by both prompt builders. -/
def context (job : Job) : String :=
  "Position: " ++ job.title ++ " at " ++ job.company ++ "\n" ++
  "Required Skills: " ++ String.intercalate ", " job.requiredSkills ++ "\n" ++
  "Technologies: " ++ String.intercalate ", " job.technologies ++ "\n" ++
  "Must-Have: " ++ String.intercalate ", " job.mustHaveRequirements ++ "\n\n" ++
  "Full Job Posting:\n" ++ job.text

/-- `reason(resume, job)`: the narrative-mode prompt template of
`src/ats.ts`, a deterministic string of the resume text and job record. -/
def reason (resume : String) (job : Job) : String :=
  "You are an ATS (Applicant Tracking System) expert analyzing resume-job compatibility.\n\nTHINK DEEPLY about how real ATS systems work. Consider:\n\n" ++
  "1. **Keyword Categories** - Which keywords are ACTUAL ATS filters vs descriptive fluff?\n" ++
  "   - Hard skills/tools (React, Figma, AWS) = HIGH priority ATS filters\n" ++
  "   - Certifications/degrees = HIGH priority\n" ++
  "   - Years of experience (when quantified) = MEDIUM priority  \n" ++
  "   - Soft skills/adjectives (innovative, polished) = RARELY filtered\n   \n" ++
  "2. **Exact Match vs Synonyms** - Will ATS recognize variations?\n" ++
  "   - \"React\" ‚â† \"React.js\" ‚â† \"ReactJS\" in many ATS systems\n" ++
  "   - \"3 years\" ‚â† \"three years\" ‚â† \"3+ years\"\n" ++
  "   - Consider which exact form THIS job uses\n   \n" ++
  "3. **Context Importance** - Where do keywords appear?\n" ++
  "   - In \"Required Skills\" = CRITICAL exact match needed\n" ++
  "   - In \"Nice to Have\" = Less critical\n" ++
  "   - In company description = Usually not filtered\n\n" ++
  "JOB CONTEXT:\n" ++ context job ++ "\n\n" ++
  "RESUME:\n" ++ resume ++ "\n\n" ++
  "TASK:\nAnalyze this resume's ATS compatibility by:\n" ++
  "1. First reasoning about which keywords are REAL ATS filters (tools, technologies, quantified experience) vs descriptive language\n" ++
  "2. Checking for exact matches vs near-misses (e.g., \"React\" vs \"React.js\")\n" ++
  "3. Calculating realistic pass probability based on ACTUAL ATS behavior\n" ++
  "4. Providing specific, actionable improvements with EXACT phrases to add\n\n" ++
  "Output natural, helpful markdown that:\n" ++
  "- It's cleanly formatted, clear, and easy to read and understand\n" ++
  "- Starts with a compatibility score and summary\n" ++
  "- Explains which keywords ACTUALLY matter for ATS and why\n" ++
  "- Shows exact matches vs near-misses\n" ++
  "- Gives specific text to add/change with locations\n" ++
  "- Focuses on what real ATS systems filter on, not generic advice\n" ++
  "- Includes realistic assessment of chances\n\n" ++
  "Be honest about what matters and what doesn't. For example, \"polished\" or \"innovative\" are unlikely ATS filters, while \"Figma\" or \"Python\" definitely are.\n\n" ++
  "IMPORTANT: Do NOT include the full resume text in your response. Only reference specific parts when making suggestions or showing examples.\n\n" ++
  "Your entire job is to give this advice. You don't need to offer to do anything else.\n\n" ++
  "ABSOLUTE RULES ABOUT SCOPE:\n" ++
  "- Do NOT include any offers, calls-to-action, or suggestions to perform additional tasks.\n" ++
  "- Do NOT write phrases like \"If you want, I can...\", \"I can also...\", \"Let me know if you want me to...\", or any variant.\n" ++
  "- Do NOT propose generating extra content (summaries, skills lines, cover letters, emails, bullet points) beyond the analysis itself.\n" ++
  "- End the response immediately after the final assessment without inviting further work.\n\n" ++
  "MARKDOWN FORMATTING REQUIREMENTS:\n" ++
  "- Use proper heading hierarchy (# for main title, ## for sections, ### for subsections)\n" ++
  "- Use **bold** for important keywords and scores\n" ++
  "- Use bullet points (- or *) for lists, not numbered lists\n" ++
  "- Use > blockquotes for key insights or warnings\n" ++
  "- Use `backticks` for specific technical terms or exact phrases to add\n" ++
  "- Use --- for section separators if needed\n" ++
  "- Keep paragraphs concise - prefer short paragraphs over walls of text\n" ++
  "- Use tables with | pipes | for | comparisons when appropriate\n\n" ++
  "END OF RESPONSE CONSTRAINT:\n" ++
  "- Conclude after the Compatibility Assessment section. Do not add closing lines, offers, next steps, or any further assistance.\n"

/-- `prompt(resume, job)`: the structured-mode scoring prompt template of
`src/ats.ts`, a deterministic string of the resume text and job record. -/
def prompt (resume : String) (job : Job) : String :=
  "You are an ATS (Applicant Tracking System) compatibility analyzer providing detailed keyword and content analysis.\n\n" ++
  "Your goal: Help candidates understand how their resume aligns with job requirements and identify optimization opportunities.\n\n" ++
  "JOB POSTING:\n" ++ context job ++ "\n\n" ++
  "RESUME:\n" ++ resume ++ "\n\n" ++
  "PROVIDE DETAILED ANALYSIS:\n\n" ++
  "FIRST: Calculate an overall compatibility score from 0-100 based on keyword matches and alignment.\n\n" ++
  "1. KEYWORD ANALYSIS - Compare keyword frequency between job and resume:\n" ++
  "   - strongMatches: Keywords that appear adequately in both (within 50% frequency)\n" ++
  "   - underRepresented: Keywords present but could be stronger (job frequency 2x+ higher)\n" ++
  "     * MUST include suggestion for each underRepresented keyword\n" ++
  "   - notFound: Important keywords missing from resume (appear 3+ times in job, 0 in resume)\n" ++
  "     * MUST include impact and suggestion for each notFound keyword\n" ++
  "   - Include exact counts and constructive suggestions\n\n" ++
  "2. SUGGESTIONS - Specific improvements to consider:\n" ++
  "   - Type: 'add' (new content), 'enhance' (strengthen existing), or 'rewrite' (revise section)\n" ++
  "   - Location: Specific section in resume\n" ++
  "   - Current text (if enhancing/rewriting)\n" ++
  "   - Suggested text with exact wording\n" ++
  "   - Impact: estimated point improvement\n" ++
  "   - Rationale: why this change would help\n\n" ++
  "3. ANALYSIS - Overall assessment:\n" ++
  "   - topPriorities: What the role emphasizes most (based on repetition/placement)\n" ++
  "   - currentStrengths: What the resume does well\n" ++
  "   - opportunities: Areas for potential improvement\n" ++
  "   - compatibility: realistic match percentage (current and potential with changes)\n\n" ++
  "4. OPTIMIZATIONS - Quick improvements:\n" ++
  "   - List 3-5 simple enhancements that could improve compatibility\n\n" ++
  "GUIDELINES:\n" ++
  "- Be specific with counts (e.g., \"React: 8x in job, 2x in resume\")\n" ++
  "- Provide exact text suggestions, not general advice\n" ++
  "- Focus on ATS keyword matching and alignment\n" ++
  "- Keep suggestions practical and achievable\n" ++
  "- Maintain neutral, professional tone\n" ++
  "- Typical compatibility ranges from 40-85%\n" ++
  "- IMPORTANT: All arrays must have at least 1 item - use placeholder if needed\n" ++
  "- For empty arrays, include at least one item like \"None identified\" or \"No changes needed\""

/-- JSON values, used to model `JSON.stringify(score, null, 2)`. -/
inductive Json
  | num (n : Int)
  | str (s : String)
  | arr (items : List Json)
  | obj (fields : List (String × Json))

/-- A hexadecimal digit character (lower case), as `JSON.stringify` uses in
`\uXXXX` escapes. -/
def hexDigit (n : Nat) : Char :=
  if n < 10 then Char.ofNat (48 + n) else Char.ofNat (87 + n)

/-- `JSON.stringify`'s escaping of one character inside a string literal. -/
def escapeChar (c : Char) : String :=
  if c = '"' then "\\\""
  else if c = '\\' then "\\\\"
  else if c = '\n' then "\\n"
  else if c = '\r' then "\\r"
  else if c = '\t' then "\\t"
  else if c = Char.ofNat 8 then "\\b"
  else if c = Char.ofNat 12 then "\\f"
  else if c.toNat < 32 then
    "\\u00" ++ String.mk [hexDigit (c.toNat / 16), hexDigit (c.toNat % 16)]
  else String.mk [c]

/-- `JSON.stringify`'s escaping of a whole string. -/
def jsonEscape (s : String) : String :=
  String.join (s.data.map escapeChar)

/-- Indentation of depth `ind` at 2 spaces per level (`JSON.stringify`'s
third argument is `2`). -/
def pad (ind : Nat) : String :=
  String.mk (List.replicate (2 * ind) ' ')

mutual

/-- Pretty printer for `Json` following `JSON.stringify(v, null, 2)`. -/
def ppJson (ind : Nat) : Json → String
  | .num n => toString n
  | .str s => "\"" ++ jsonEscape s ++ "\""
  | .arr [] => "[]"
  | .arr (j :: rest) =>
    "[\n" ++ String.intercalate ",\n" (ppItems (ind + 1) (j :: rest)) ++ "\n" ++ pad ind ++ "]"
  | .obj [] => "\x7b\x7d"
  | .obj (f :: rest) =>
    "\x7b\n" ++ String.intercalate ",\n" (ppFields (ind + 1) (f :: rest)) ++ "\n" ++ pad ind ++ "\x7d"

/-- Array items, each on its own indented line. -/
def ppItems (ind : Nat) : List Json → List String
  | [] => []
  | j :: rest => (pad ind ++ ppJson ind j) :: ppItems ind rest

/-- Object fields, each `"key": value` on its own indented line. -/
def ppFields (ind : Nat) : List (String × Json) → List String
  | [] => []
  | (k, v) :: rest =>
    (pad ind ++ "\"" ++ jsonEscape k ++ "\": " ++ ppJson ind v) :: ppFields ind rest

end

/-- The string a `suggestions[].type` value denotes. -/
def suggestionTypeStr : SuggestionType → String
  | .add => "add"
  | .enhance => "enhance"
  | .rewrite => "rewrite"

/-- `s.charAt(0).toUpperCase() + s.slice(1)`. -/
def capitalizeFirst (s : String) : String :=
  match s.data with
  | [] => ""
  | c :: cs => String.mk (c.toUpper :: cs)

/-- JSON form of a `strongMatches` entry, fields in schema order. -/
def StrongMatch.toJson (k : StrongMatch) : Json :=
  .obj [("keyword", .str k.keyword), ("jobFrequency", .num k.jobFrequency),
        ("resumeFrequency", .num k.resumeFrequency)]

/-- JSON form of an `underRepresented` entry, fields in schema order. -/
def UnderRepresentedKeyword.toJson (k : UnderRepresentedKeyword) : Json :=
  .obj [("keyword", .str k.keyword), ("jobFrequency", .num k.jobFrequency),
        ("resumeFrequency", .num k.resumeFrequency), ("suggestion", .str k.suggestion)]

/-- JSON form of a `notFound` entry, fields in schema order. -/
def NotFoundKeyword.toJson (k : NotFoundKeyword) : Json :=
  .obj [("keyword", .str k.keyword), ("jobFrequency", .num k.jobFrequency),
        ("impact", .num k.impact), ("suggestion", .str k.suggestion)]

/-- JSON form of a `suggestions` entry: the optional `current` field is
omitted when absent, as `JSON.stringify` omits `undefined` members. -/
def Suggestion.toJson (s : Suggestion) : Json :=
  .obj ([("type", .str (suggestionTypeStr s.type)), ("location", .str s.location)] ++
    (match s.current with
     | some c => [("current", Json.str c)]
     | none => []) ++
    [("suggested", .str s.suggested), ("impact", .num s.impact),
     ("rationale", .str s.rationale)])

/-- JSON form of a `Score`, fields in the `ScoreSchema` declaration order
(the order `zod`'s `.parse` builds the validated object in). -/
def Score.toJson (s : Score) : Json :=
  .obj
    [("score", .num s.score),
     ("keywordAnalysis", .obj
       [("strongMatches", .arr (s.keywordAnalysis.strongMatches.map StrongMatch.toJson)),
        ("underRepresented", .arr (s.keywordAnalysis.underRepresented.map UnderRepresentedKeyword.toJson)),
        ("notFound", .arr (s.keywordAnalysis.notFound.map NotFoundKeyword.toJson))]),
     ("suggestions", .arr (s.suggestions.map Suggestion.toJson)),
     ("analysis", .obj
       [("topPriorities", .arr (s.analysis.topPriorities.map Json.str)),
        ("currentStrengths", .arr (s.analysis.currentStrengths.map Json.str)),
        ("opportunities", .arr (s.analysis.opportunities.map Json.str)),
        ("compatibility", .obj
          [("current", .num s.analysis.compatibility.current),
           ("potential", .num s.analysis.compatibility.potential)])]),
     ("optimizations", .arr (s.optimizations.map Json.str))]

/-- `JSON.stringify(score, null, 2)`, the `json` branch of `render`. -/
def renderJson (score : Score) : String :=
  ppJson 0 (Score.toJson score)

mutual

/-- Modelled from the spec: the serialization of one field of the `xml`
output.  The `jstoxml` library (`toXML`) is external dependency code not
under `src/`; per §4.6 the xml form is "a root `evaluation` element
wrapping the same fields" with "array fields serialized as repeated or
joined child content", modelled here as one element per scalar field and
repeated child elements for arrays. -/
def xmlVal (key : String) (ind : Nat) : Json → String
  | .num n => pad ind ++ "<" ++ key ++ ">" ++ toString n ++ "</" ++ key ++ ">"
  | .str s => pad ind ++ "<" ++ key ++ ">" ++ s ++ "</" ++ key ++ ">"
  | .arr items => String.intercalate "\n" (xmlItems key ind items)
  | .obj fields =>
    pad ind ++ "<" ++ key ++ ">\n" ++ String.intercalate "\n" (xmlFields (ind + 1) fields) ++
    "\n" ++ pad ind ++ "</" ++ key ++ ">"

/-- Modelled from the spec: array items as repeated elements named by the
array's key. -/
def xmlItems (key : String) (ind : Nat) : List Json → List String
  | [] => []
  | j :: rest => xmlVal key ind j :: xmlItems key ind rest

/-- Modelled from the spec: object fields as child elements named by their
keys. -/
def xmlFields (ind : Nat) : List (String × Json) → List String
  | [] => []
  | (k, v) :: rest => xmlVal k ind v :: xmlFields ind rest

end

/-- Modelled from the spec: `toXML({ evaluation: score }, { header: true,
indent: '  ' })` — an xml header followed by the root `evaluation` element
wrapping every field the json form carries. -/
def renderXml (score : Score) : String :=
  "<?xml version=\"1.0\" encoding=\"UTF-8\"?>\n" ++ xmlVal "evaluation" 0 (Score.toJson score)

/-- The verdict line closing the markdown report: the literal nested
conditional of `render` with its `>= 80 / >= 65 / >= 50` thresholds (the
strings are byte-for-byte the literals of `src/ats.ts`). -/
def verdict (score : Int) : String :=
  if score ≥ 80 then "‚úÖ **Excellent match** - Your resume strongly aligns with requirements"
  else if score ≥ 65 then "üëç **Good match** - Solid foundation with room for optimization"
  else if score ≥ 50 then "üìù **Moderate match** - Consider the suggestions above to strengthen alignment"
  else "‚ö†Ô∏è **Limited match** - Significant improvements recommended before applying"

/-- `render(score, type)` of `src/ats.ts`.  The markdown branch is the
fixed template literal, translated interpolation by interpolation (string
literals are byte-for-byte those of the source file, including its
mangled emoji bytes). -/
def render (score : Score) (type : Format) : String :=
  match type with
  | .json => renderJson score
  | .xml => renderXml score
  | .markdown =>
    let keywordAnalysis := score.keywordAnalysis
    let suggestions := score.suggestions
    let analysis := score.analysis
    let optimizations := score.optimizations
    "# ATS Compatibility Report: " ++ toString score.score ++ "/100\n\n" ++
    "## Keyword Analysis\n\n" ++
    "### ‚úÖ Strong Matches\n" ++
    (if keywordAnalysis.strongMatches.length > 0 then
      String.intercalate "\n" (keywordAnalysis.strongMatches.map fun k =>
        "**" ++ k.keyword ++ "** - You: " ++ toString k.resumeFrequency ++
        "x | Job: " ++ toString k.jobFrequency ++ "x")
    else "No strong keyword matches identified") ++
    "\n\n### ‚ö†Ô∏è Under-represented Keywords\n" ++
    (if keywordAnalysis.underRepresented.length > 0 then
      String.intercalate "\n\n" (keywordAnalysis.underRepresented.map fun k =>
        "**" ++ k.keyword ++ "** - You: " ++ toString k.resumeFrequency ++
        "x | Job: " ++ toString k.jobFrequency ++ "x\n‚Üí Consider: " ++ k.suggestion)
    else "All present keywords are well-represented") ++
    "\n\n### ‚ùå Keywords Not Found\n" ++
    (if keywordAnalysis.notFound.length > 0 then
      String.intercalate "\n\n" (keywordAnalysis.notFound.map fun k =>
        "**" ++ k.keyword ++ "** - Job mentions: " ++ toString k.jobFrequency ++
        "x\n‚Üí Consider: " ++ k.suggestion)
    else "No critical keywords missing") ++
    "\n\n## Optimization Opportunities\n\n" ++
    String.intercalate "\n\n" (suggestions.enum.map fun is =>
      let i := is.1
      let s := is.2
      let header := "### Suggestion #" ++ toString (i + 1) ++ ": " ++
        capitalizeFirst (suggestionTypeStr s.type) ++ " " ++ s.location
      let current := match s.current with
        | some c => "**Current:** \"" ++ c ++ "\""
        | none => ""
      let suggested := "**Consider:** \"" ++ s.suggested ++ "\""
      let impact := "**Potential Impact:** +" ++ toString s.impact ++ " points"
      let rationale := "**Rationale:** " ++ s.rationale
      String.intercalate "\n"
        ([header, current, suggested, impact, rationale].filter (· ≠ ""))) ++
    "\n\n## Role Analysis\n\n### Top Priorities\n" ++
    String.intercalate "\n" (analysis.topPriorities.map fun p => "- " ++ p) ++
    "\n\n### Your Strengths\n" ++
    String.intercalate "\n" (analysis.currentStrengths.map fun s => "- " ++ s) ++
    "\n\n### Opportunities\n" ++
    String.intercalate "\n" (analysis.opportunities.map fun o => "- " ++ o) ++
    "\n\n## Quick Optimizations\n" ++
    String.intercalate "\n" (optimizations.map fun o => "‚Üí " ++ o) ++
    "\n\n## Compatibility Assessment\n" ++
    "**Current Match:** " ++ toString analysis.compatibility.current ++ "%\n" ++
    "**Potential Match:** " ++ toString analysis.compatibility.potential ++ "%\n" ++
    "**Possible Improvement:** +" ++
    toString (analysis.compatibility.potential - analysis.compatibility.current) ++ "%\n\n" ++
    verdict score.score

/-- `export type Phase` of `src/ats.ts`. -/
inductive Phase
  | parsing
  | parsed
  | scraping
  | scraped
  | analyzing
  | reasoning
  | generating
  | scoring
  | complete
deriving DecidableEq

/-- A partially populated `keywordAnalysis` inside a streamed partial
object (`Partial<Score['keywordAnalysis']>`). -/
structure PartialKeywordAnalysis where
  strongMatches : Option (List StrongMatch)
  underRepresented : Option (List UnderRepresentedKeyword)
  notFound : Option (List NotFoundKeyword)
deriving DecidableEq

/-- `export interface ScoringData`: the shape of one partial object of the
structured-mode stream (every component optional).  `analyzeStream` treats
partials opaquely (its callback parameter is typed `any` and the value is
forwarded verbatim), so nothing in the pipeline inspects these fields. -/
structure ScoringData where
  score : Option Int
  keywordAnalysis : Option PartialKeywordAnalysis
  suggestions : Option (List Suggestion)
  analysis : Option RoleAnalysis
  optimizations : Option (List String)
deriving DecidableEq

/-- `export type ProgressData`: the payload shapes of progress events. -/
inductive ProgressData
  | parsedData (name : Option String) (email : Option String)
  | scrapedData (title : String) (company : String)
  | textData (text : String)
  | scoringData (part : ScoringData)
  | scoreData (s : Score)
deriving DecidableEq

/-- `export interface ProgressUpdate`. -/
structure ProgressUpdate where
  phase : Phase
  data : Option ProgressData
deriving DecidableEq

/-- One item of the narrative-mode `fullStream`: a reasoning delta, an
answer-text delta, or any other part kind (start/finish/step events),
which `processStream` ignores. -/
inductive StreamPart
  | reasoningDelta (text : String)
  | textDelta (text : String)
  | otherPart
deriving DecidableEq

/-- The answer-text channel: `textStream` yields exactly the text deltas
of `fullStream`, in order (both are views of the one underlying stream). -/
def textDeltas (stream : List StreamPart) : List String :=
  stream.filterMap fun p =>
    match p with
    | .textDelta t => some t
    | _ => none

/-- The `processStream` loop body of `atsStream`'s narrative branch: each
`fullStream` part is dispatched to at most one progress event —
`reasoning` for a reasoning delta when `config.reasoning !== 'none'`,
`generating` for a text delta, nothing otherwise. -/
def processStream (reasoningCfg : Reasoning) (stream : List StreamPart) :
    List ProgressUpdate :=
  stream.filterMap fun p =>
    match p with
    | .reasoningDelta t =>
      if reasoningCfg ≠ .none then some ⟨.reasoning, some (.textData t)⟩ else Option.none
    | .textDelta t => some ⟨.generating, some (.textData t)⟩
    | .otherPart => Option.none

/-- The errors the pipeline can reject with, classified per §7's taxonomy
by the site that throws (the source throws plain `Error`s; the payload is
the thrown message): `precondition` is the `'FIRECRAWL_API_KEY required'`
guard, `ingest` a `parse` failure, `collection` the
`'Failed to scrape job posting'` throw of `scrape`, `analysis` the
`'Failed to generate analysis: ...'` throw of `analyze`, and `external` an
error thrown inside a collaborator and propagated unchanged. -/
inductive JhError
  | precondition (msg : String)
  | ingest (msg : String)
  | collection (msg : String)
  | analysis (msg : String)
  | external (msg : String)
deriving DecidableEq

/-- The side-effecting collaborator calls the pipeline performs, in call
order: the resume file read, the Firecrawl scrape (with its resolved
`maxAge`), and the three kinds of AI request, each recording the model,
provider options and prompt it was built from. -/
inductive Op
  | readFile
  | scrapeCall (maxAge : Int)
  | aiStreamText (model : String) (reasoningSummary : Reasoning) (verbosity : Verbosity)
      (promptText : String)
  | aiStreamObject (model : String) (verbosity : Verbosity) (promptText : String)
  | aiGenerateObject (model : String) (verbosity : Verbosity) (promptText : String)
deriving DecidableEq

/-- The behaviour of every external collaborator during one invocation:
the process environment's credentials, the outcome of the PDF parse, the
Firecrawl response, the narrative token stream (its parts, and whether it
ends cleanly or throws after them), and the structured stream (the partial
objects it yields, the outcome of its final-object promise, and the
outcome of the single-shot `generateObject` fallback).  `openaiApiKey` is
carried because §6 names it a required credential: the pipeline itself
never reads it (only the AI SDK does, at call time). -/
structure Env where
  firecrawlApiKey : Option String
  openaiApiKey : Option String
  parseResult : Except String Resume
  scrapeResult : Except String ScrapeResponse
  fullStream : List StreamPart
  streamOutcome : Except String Unit
  partialObjects : List ScoringData
  objectOutcome : Except String Score
  generateOutcome : Except String Score

/-- The message `analyze` wraps an underlying generation failure in. -/
def analysisFailureMsg (cause : String) : String :=
  "Failed to generate analysis: " ++ cause

/-- `analyze(resume, job, config)` of `src/ats.ts`: merge the config over
defaults, build the scoring prompt, issue one non-streaming
`generateObject` call, and either return its object or rethrow the
failure wrapped in `'Failed to generate analysis: ...'`.  Returns the
calls performed and the outcome. -/
def analyze (env : Env) (resume : Resume) (job : Job) (config : Config) :
    List Op × Except JhError Score :=
  let opts := mergeConfig config
  let promptText := prompt resume.text job
  ([.aiGenerateObject opts.model opts.verbosity promptText],
   match env.generateOutcome with
   | .ok object => .ok object
   | .error e => .error (.analysis (analysisFailureMsg e)))

/-- `analyzeStream(resume, job, config, onProgress)` of `src/ats.ts`:
issue one `streamObject` call; when a callback was supplied, forward every
partial object to it (first component: the partials delivered, in order);
then await the final object.  If the final-object promise rejects, fall
back exactly once to `analyze` with the same `resume`, `job` and `config`.
Stream errors surface through the final-object promise (the partial
stream itself ends without throwing), matching the AI SDK contract the
source relies on. -/
def analyzeStream (env : Env) (resume : Resume) (job : Job) (config : Config)
    (hasOnProgress : Bool) : List ScoringData × List Op × Except JhError Score :=
  let opts := mergeConfig config
  let promptText := prompt resume.text job
  let delivered := if hasOnProgress then env.partialObjects else []
  match env.objectOutcome with
  | .ok object =>
    (delivered, [.aiStreamObject opts.model opts.verbosity promptText], .ok object)
  | .error _ =>
    let fallback := analyze env resume job config
    (delivered, .aiStreamObject opts.model opts.verbosity promptText :: fallback.1,
     fallback.2)

/-- The options record of `atsStream` (`abortSignal` is not modelled: no
claim concerns cancellation).  `onProgress` is `true` when a callback was
supplied; the event list of a run is what that callback received. -/
structure StreamOptions where
  firecrawlKey : Option String
  format : Option Format
  maxAge : Option Int
  config : Config
  onProgress : Bool

/-- `options.format || 'markdown'`. -/
def formatType (options : StreamOptions) : Format :=
  options.format.getD .markdown

/-- An emission through the optional callback: `options.onProgress?.(u)`
delivers `u` exactly when a callback is registered. -/
def emit (hasOnProgress : Bool) (u : ProgressUpdate) : List ProgressUpdate :=
  if hasOnProgress then [u] else []

/-- Decidable equality for `Except` outcomes (needed to evaluate concrete
runs in witnesses). -/
instance instDecEqExcept {ε α : Type} [DecidableEq ε] [DecidableEq α] :
    DecidableEq (Except ε α) := fun a b =>
  match a, b with
  | .ok a, .ok b => decidable_of_iff (a = b) (by simp)
  | .ok _, .error _ => .isFalse (by simp)
  | .error _, .ok _ => .isFalse (by simp)
  | .error e, .error f => decidable_of_iff (e = f) (by simp)

/-- The result of one `atsStream` invocation: the progress events
delivered to the callback in delivery order, the collaborator calls in
call order, and the returned string or thrown error. -/
structure RunResult where
  events : List ProgressUpdate
  ops : List Op
  result : Except JhError String
deriving DecidableEq

/-- `atsStream(resumePath, jobUrl, options)` of `src/ats.ts`.
Sequencing follows the source: credential guard (before any I/O), then
`parsing`/`parse`/`parsed`, `scraping`/`scrape`/`scraped`, then the
format branch.  The narrative (markdown) branch emits `analyzing`, starts
`processStream` over `fullStream` (when a callback exists), accumulates
`textStream` into the returned string, and emits `complete`; a stream
error propagates out instead (no `complete`), while the fire-and-forget
`processStream` events for the delivered parts stand.  The structured
branch emits `scoring`, runs `analyzeStream` forwarding each partial as a
`scoring` event, emits `complete` carrying the final `Score`, and returns
`render(result, formatType)`.  Single-threaded event-loop scheduling is
modelled by delivering each delta's event in arrival order. -/
def atsStream (env : Env) (_resumePath jobUrl : String) (options : StreamOptions) :
    RunResult :=
  let firecrawlKey := resolveKey options.firecrawlKey env.firecrawlApiKey
  if !truthyStr firecrawlKey then
    { events := [], ops := [], result := .error (.precondition "FIRECRAWL_API_KEY required") }
  else
    let op := options.onProgress
    let ev0 := emit op ⟨.parsing, none⟩
    match env.parseResult with
    | .error e => { events := ev0, ops := [.readFile], result := .error (.ingest e) }
    | .ok resume =>
      let ev1 := ev0 ++ emit op ⟨.parsed, some (.parsedData resume.name resume.email)⟩ ++
        emit op ⟨.scraping, none⟩
      let maxAge := options.maxAge.getD 3600000
      match env.scrapeResult with
      | .error e =>
        { events := ev1, ops := [.readFile, .scrapeCall maxAge],
          result := .error (.external e) }
      | .ok res =>
        match scrape jobUrl res with
        | .error e =>
          { events := ev1, ops := [.readFile, .scrapeCall maxAge],
            result := .error (.collection e) }
        | .ok job =>
          let ev2 := ev1 ++ emit op ⟨.scraped, some (.scrapedData job.title job.company)⟩
          let config := mergeConfig options.config
          if formatType options = .markdown then
            let ev3 := ev2 ++ emit op ⟨.analyzing, none⟩
            let deltaEvents := if op then processStream config.reasoning env.fullStream else []
            let ops := [Op.readFile, .scrapeCall maxAge,
              .aiStreamText config.model
                (if config.reasoning = .none then .auto else config.reasoning)
                config.verbosity (reason resume.text job)]
            match env.streamOutcome with
            | .error e =>
              { events := ev3 ++ deltaEvents, ops := ops, result := .error (.external e) }
            | .ok _ =>
              { events := ev3 ++ deltaEvents ++ emit op ⟨.complete, none⟩, ops := ops,
                result := .ok ((textDeltas env.fullStream).foldl (· ++ ·) "") }
          else
            let ev3 := ev2 ++ emit op ⟨.scoring, none⟩
            let streamed := analyzeStream env resume job config.toConfig true
            let partialEvents :=
              if op then streamed.1.map fun p => ⟨.scoring, some (.scoringData p)⟩ else []
            let ops := [Op.readFile, .scrapeCall maxAge] ++ streamed.2.1
            match streamed.2.2 with
            | .ok result =>
              { events := ev3 ++ partialEvents ++
                  emit op ⟨.complete, some (.scoreData result)⟩,
                ops := ops, result := .ok (render result (formatType options)) }
            | .error e =>
              { events := ev3 ++ partialEvents, ops := ops, result := .error e }

/-- The options record of the one-shot `ats` entry point. -/
structure AtsOptions where
  firecrawlKey : Option String
  format : Option Format
  maxAge : Option Int
  config : Config

/-- `ats(resumePath, jobUrl, options)` of `src/ats.ts`: same pipeline with
no progress events — credential guard, parse, scrape, then either
narrative accumulation over `textStream` or `analyzeStream` with no
callback followed by `render`. -/
def ats (env : Env) (_resumePath jobUrl : String) (options : AtsOptions) :
    List Op × Except JhError String :=
  let firecrawlKey := resolveKey options.firecrawlKey env.firecrawlApiKey
  if !truthyStr firecrawlKey then
    ([], .error (.precondition "FIRECRAWL_API_KEY required"))
  else
    match env.parseResult with
    | .error e => ([.readFile], .error (.ingest e))
    | .ok resume =>
      let maxAge := options.maxAge.getD 3600000
      match env.scrapeResult with
      | .error e => ([.readFile, .scrapeCall maxAge], .error (.external e))
      | .ok res =>
        match scrape jobUrl res with
        | .error e => ([.readFile, .scrapeCall maxAge], .error (.collection e))
        | .ok job =>
          let config := mergeConfig options.config
          if options.format.getD .markdown = .markdown then
            let ops := [Op.readFile, .scrapeCall maxAge,
              .aiStreamText config.model
                (if config.reasoning = .none then .auto else config.reasoning)
                config.verbosity (reason resume.text job)]
            match env.streamOutcome with
            | .error e => (ops, .error (.external e))
            | .ok _ => (ops, .ok ((textDeltas env.fullStream).foldl (· ++ ·) ""))
          else
            let streamed := analyzeStream env resume job config.toConfig false
            match streamed.2.2 with
            | .ok result =>
              ([Op.readFile, .scrapeCall maxAge] ++ streamed.2.1,
               .ok (render result (options.format.getD .markdown)))
            | .error e => ([Op.readFile, .scrapeCall maxAge] ++ streamed.2.1, .error e)

/-- The stage index of a phase in the legal order of §4.4: the one-shot
pipeline phases in strictly increasing stages, the repeatable generation
phases (`reasoning`/`generating`/`scoring`) sharing one stage, `complete`
last. -/
def stageOf : Phase → Nat
  | .parsing => 0
  | .parsed => 1
  | .scraping => 2
  | .scraped => 3
  | .analyzing => 4
  | .reasoning => 5
  | .generating => 5
  | .scoring => 5
  | .complete => 6

/-- Whether a phase may occur at most once per invocation (every phase but
the repeatable generation trio). -/
def oneShot : Phase → Bool
  | .reasoning => false
  | .generating => false
  | .scoring => false
  | _ => true

/-- The legality checker for phase sequences, scanning left to right with
the least stage the next phase may have: each phase's stage must be at
least the current bound; a one-shot phase raises the bound past its own
stage (so it cannot repeat and nothing can follow `complete`), a
repeatable phase raises it to its own stage. -/
def legalFrom (cur : Nat) : List Phase → Bool
  | [] => true
  | p :: rest =>
    decide (cur ≤ stageOf p) &&
      legalFrom (if oneShot p then stageOf p + 1 else stageOf p) rest

/-- A phase sequence is legal when it passes the scan from stage 0: it is
then a subsequence of §4.4's order — no `scoring` before `scraped`, no
`complete` before the generation phases, nothing after `complete`. -/
def legalTrace (ps : List Phase) : Bool :=
  legalFrom 0 ps

/-- The phase names of an event list, in delivery order. -/
def eventPhases (events : List ProgressUpdate) : List Phase :=
  events.map (·.phase)

/-- The `data.text` payload of a `generating`-phase event (and nothing
else). -/
def generatingText (u : ProgressUpdate) : Option String :=
  match u with
  | ⟨.generating, some (.textData t)⟩ => some t
  | _ => none

/-- Whether an `Op` is the non-streaming single-shot structured request. -/
def isGenerateObjectOp : Op → Bool
  | .aiGenerateObject _ _ _ => true
  | _ => false

/-- Whether an `Op` is the streaming structured request. -/
def isStreamObjectOp : Op → Bool
  | .aiStreamObject _ _ _ => true
  | _ => false

/-! Concrete fixtures used by witnesses and counterexamples. -/

/-- A concrete parsed resume. -/
def sampleResume : Resume :=
  { text := "Jane Doe\njane@x.com", name := some "Jane Doe",
    email := some "jane@x.com", phone := none }

/-- A concrete structured extraction. -/
def sampleExtraction : Extraction :=
  { jobTitle := some "Engineer", companyName := some "Acme",
    qualifications := some ["React", "TypeScript"],
    responsibilities := some ["Build UI"], jobDescription := some "desc" }

/-- A concrete successful scrape response. -/
def sampleResponse : ScrapeResponse :=
  { json := some sampleExtraction, markdown := some "# Job post", html := none }

/-- A collaborator environment for a successful narrative run in which the
AI-service credential is absent from the process environment. -/
def envMd : Env :=
  { firecrawlApiKey := some "fc_key", openaiApiKey := none,
    parseResult := .ok sampleResume, scrapeResult := .ok sampleResponse,
    fullStream := [.reasoningDelta "thinking ", .textDelta "Hello ",
      .otherPart, .textDelta "world"],
    streamOutcome := .ok (), partialObjects := [],
    objectOutcome := .error "unused", generateOutcome := .error "unused" }

/-- Markdown-format options with a registered progress callback. -/
def mdOptions : StreamOptions :=
  { firecrawlKey := none, format := some .markdown, maxAge := none,
    config := { model := none, verbosity := none, reasoning := none },
    onProgress := true }

/-- A concrete partial object of the structured stream. -/
def samplePartial : ScoringData :=
  { score := some 50, keywordAnalysis := none, suggestions := none,
    analysis := none, optimizations := none }

/-- A collaborator environment for a structured run whose partial-object
stream fails and whose single-shot fallback also fails. -/
def envStFail : Env :=
  { firecrawlApiKey := some "fc_key", openaiApiKey := some "sk_key",
    parseResult := .ok sampleResume, scrapeResult := .ok sampleResponse,
    fullStream := [], streamOutcome := .ok (),
    partialObjects := [samplePartial],
    objectOutcome := .error "stream failed",
    generateOutcome := .error "fallback failed" }

/-- Json-format options with a registered progress callback. -/
def jsonOptions : StreamOptions :=
  { firecrawlKey := none, format := some .json, maxAge := none,
    config := { model := none, verbosity := none, reasoning := none },
    onProgress := true }

/-- A scrape response carrying neither a structured extraction nor a
markdown rendering. -/
def emptyResponse : ScrapeResponse :=
  { json := none, markdown := none, html := some "<html></html>" }

/-- A collaborator environment whose scrape call returns `emptyResponse`. -/
def envNoContent : Env :=
  { firecrawlApiKey := some "fc_key", openaiApiKey := some "sk_key",
    parseResult := .ok sampleResume, scrapeResult := .ok emptyResponse,
    fullStream := [], streamOutcome := .ok (), partialObjects := [],
    objectOutcome := .error "unused", generateOutcome := .error "unused" }

/-- A process environment holding no credential at all. -/
def envNoKeys : Env :=
  { firecrawlApiKey := none, openaiApiKey := none,
    parseResult := .ok sampleResume, scrapeResult := .ok sampleResponse,
    fullStream := [], streamOutcome := .ok (), partialObjects := [],
    objectOutcome := .error "unused", generateOutcome := .error "unused" }

/-- One-shot options with no explicit credential. -/
def plainAtsOptions : AtsOptions :=
  { firecrawlKey := none, format := some .markdown, maxAge := none,
    config := { model := none, verbosity := none, reasoning := none } }

/-- A scrape response whose structured extraction is present but has no
field populated. -/
def sparseResponse : ScrapeResponse :=
  { json := some emptyExtraction, markdown := some "# post", html := none }

/-- The `Job` that `scrape` builds from `sparseResponse`: every field
defaulted. -/
def defaultedJob : Job :=
  { text := "# post", url := "https://j", title := "Unknown Position",
    company := "Unknown Company", requiredSkills := [],
    mustHaveRequirements := [], niceToHave := [], keyResponsibilities := [],
    technologies := [], keywords := [], experienceYears := none }

/-- The `Job` that `scrape` builds from `sampleResponse`. -/
def scrapedJob : Job :=
  { text := "# Job post", url := "https://j", title := "Engineer",
    company := "Acme", requiredSkills := ["React", "TypeScript"],
    mustHaveRequirements := ["React", "TypeScript"], niceToHave := [],
    keyResponsibilities := ["Build UI"],
    technologies := ["React", "TypeScript"], keywords := [],
    experienceYears := none }

/-- A concrete strong keyword match. -/
def sampleStrong : StrongMatch :=
  { keyword := "React", jobFrequency := 8, resumeFrequency := 5 }

/-- A concrete missing keyword. -/
def sampleNotFound : NotFoundKeyword :=
  { keyword := "Figma", jobFrequency := 4, impact := 5,
    suggestion := "Add Figma to the skills section" }

/-- A concrete improvement suggestion. -/
def sampleSuggestion : Suggestion :=
  { type := .add, location := "Skills", current := none,
    suggested := "Figma", impact := 5, rationale := "Missing keyword" }

/-- A concrete keyword analysis. -/
def sampleKeywordAnalysis : KeywordAnalysis :=
  { strongMatches := [sampleStrong], underRepresented := [],
    notFound := [sampleNotFound] }

/-- A concrete role analysis. -/
def sampleRoleAnalysis : RoleAnalysis :=
  { topPriorities := ["React expertise"], currentStrengths := ["Strong React"],
    opportunities := ["Design tooling"],
    compatibility := { current := 70, potential := 88 } }

/-- A concrete `Score` whose overall score is 82. -/
def sc82 : Score :=
  { score := 82, keywordAnalysis := sampleKeywordAnalysis,
    suggestions := [sampleSuggestion], analysis := sampleRoleAnalysis,
    optimizations := ["Add Figma"] }

/-! ## Theorems -/

/-- C6: `scrape` fails with the `CollectionError` exactly when the
collaborator returned neither a structured extraction nor a (nonempty)
raw text rendering; a structured extraction, however partially populated,
is always a success; and when collection fails, `atsStream` rejects after
emitting `scraping` without ever emitting `scraped` (the delivered events
are exactly `parsing`, `parsed`, `scraping`). -/
theorem scrape_collection_failure_iff (jobUrl : String) (res : ScrapeResponse) :
    (scrape jobUrl res = .error scrapeFailureMsg ↔
      res.json = none ∧ truthyStr res.markdown = false)
    ∧ (∀ ex, res.json = some ex → ∃ job, scrape jobUrl res = .ok job)
    ∧ (∀ (env : Env) (rp : String) (options : StreamOptions) (resume : Resume),
        truthyStr (resolveKey options.firecrawlKey env.firecrawlApiKey) = true →
        env.parseResult = .ok resume →
        env.scrapeResult = .ok res →
        scrape jobUrl res = .error scrapeFailureMsg →
        options.onProgress = true →
        (atsStream env rp jobUrl options).events =
          [⟨.parsing, none⟩, ⟨.parsed, some (.parsedData resume.name resume.email)⟩,
            ⟨.scraping, none⟩] ∧
        (atsStream env rp jobUrl options).result = .error (.collection scrapeFailureMsg)) := by
  have key : scrape jobUrl res = .error scrapeFailureMsg ↔
      (!res.json.isSome && !truthyStr res.markdown) = true := by
    unfold scrape
    split <;> simp_all
  refine ⟨?_, ?_, ?_⟩
  · rw [key]
    cases hj : res.json <;> simp [hj]
  · intro ex hex
    unfold scrape
    simp [hex]
  · intro env rp options resume hkey hp hs hsc hop
    constructor <;>
      simp [atsStream, hkey, hp, hs, hsc, hop, emit]

/-- C7: every `Job` that `scrape` returns has all required fields
populated: an omitted `jobTitle` defaults the title to
"Unknown Position", an omitted `companyName` the company to
"Unknown Company", and omitted list sources default every list field to
the empty list (`niceToHave` and `keywords` are unconditionally empty). -/
theorem scrape_field_defaults (jobUrl : String) (res : ScrapeResponse) (job : Job)
    (h : scrape jobUrl res = .ok job) :
    ((res.json.getD emptyExtraction).jobTitle = none → job.title = "Unknown Position")
    ∧ ((res.json.getD emptyExtraction).companyName = none → job.company = "Unknown Company")
    ∧ ((res.json.getD emptyExtraction).qualifications = none →
        job.requiredSkills = [] ∧ job.mustHaveRequirements = [] ∧ job.technologies = [])
    ∧ ((res.json.getD emptyExtraction).responsibilities = none → job.keyResponsibilities = [])
    ∧ job.niceToHave = [] ∧ job.keywords = [] := by
  unfold scrape at h
  split at h
  · simp at h
  · rw [Except.ok.injEq] at h
    subst h
    refine ⟨?_, ?_, ?_, ?_, rfl, rfl⟩
    · intro ht
      simp [orStr, truthyStr, ht]
    · intro hc
      simp [orStr, truthyStr, hc]
    · intro hq
      simp [hq, extractTechnologies]
    · intro hr
      simp [hr]

/-- C7 witness: on the concrete all-fields-omitted extraction, the
defaults are delivered. -/
theorem scrape_field_defaults_witness :
    defaultedJob.title = "Unknown Position" ∧ defaultedJob.company = "Unknown Company"
    ∧ defaultedJob.requiredSkills = [] ∧ defaultedJob.keyResponsibilities = [] := by
  have h := scrape_field_defaults "https://j" sparseResponse defaultedJob (by decide)
  exact ⟨h.1 (by decide), h.2.1 (by decide), (h.2.2.1 (by decide)).1, h.2.2.2.1 (by decide)⟩

/-- C10: every `Job` that `scrape` returns has empty `keywords`, empty
`niceToHave`, and `requiredSkills` identical to `mustHaveRequirements`
(both are `json.qualifications || []`): the collaborator's own
keyword/nice-to-have extractions are never propagated. -/
theorem scrape_keywords_empty (jobUrl : String) (res : ScrapeResponse) (job : Job)
    (h : scrape jobUrl res = .ok job) :
    job.keywords = [] ∧ job.niceToHave = [] ∧
    job.requiredSkills = job.mustHaveRequirements := by
  unfold scrape at h
  split at h
  · simp at h
  · rw [Except.ok.injEq] at h
    subst h
    exact ⟨rfl, rfl, rfl⟩

/-- C10 witness: concrete evaluation on a populated extraction. -/
theorem scrape_keywords_empty_witness :
    scrape "https://j" sampleResponse = .ok scrapedJob ∧
      scrapedJob.keywords = [] ∧ scrapedJob.niceToHave = [] ∧
      scrapedJob.requiredSkills = scrapedJob.mustHaveRequirements :=
  ⟨by decide, scrape_keywords_empty "https://j" sampleResponse scrapedJob (by decide)⟩

/-- C8: the markdown rendering ends with the Compatibility Assessment
block, whose improvement line is exactly
`potential - current`, followed by the verdict chosen by the literal
`>= 80 / >= 65 / >= 50` thresholds; at score 82 the excellent tier is
chosen. -/
theorem render_compatibility_assessment (s : Score) :
    (∃ p, render s .markdown =
      p ++ ("**Possible Improvement:** +" ++
        (toString (s.analysis.compatibility.potential - s.analysis.compatibility.current) ++
          ("%\n\n" ++ verdict s.score))))
    ∧ (s.score = 82 → verdict s.score =
        "‚úÖ **Excellent match** - Your resume strongly aligns with requirements") := by
  constructor
  · simp only [render]
    rw [String.append_assoc, String.append_assoc, String.append_assoc]
    exact ⟨_, rfl⟩
  · intro h
    rw [h]
    decide

/-- C8 witness: concrete evaluation at the score-82 `Score`. -/
theorem render_compatibility_assessment_witness :
    sc82.score = 82 ∧ verdict sc82.score =
      "‚úÖ **Excellent match** - Your resume strongly aligns with requirements" :=
  ⟨rfl, (render_compatibility_assessment sc82).2 rfl⟩

/-- C6 witness: the `json=null, markdown=null` response fails collection
and the stream run rejects after `parsing`, `parsed`, `scraping`. -/
theorem scrape_collection_failure_iff_witness :
    scrape "https://j" emptyResponse = .error scrapeFailureMsg ∧
    (atsStream envNoContent "resume.pdf" "https://j" jsonOptions).events =
      [⟨.parsing, none⟩,
        ⟨.parsed, some (.parsedData sampleResume.name sampleResume.email)⟩,
        ⟨.scraping, none⟩] ∧
    (atsStream envNoContent "resume.pdf" "https://j" jsonOptions).result =
      .error (.collection scrapeFailureMsg) := by
  have h := scrape_collection_failure_iff "https://j" emptyResponse
  have h3 := h.2.2 envNoContent "resume.pdf" jsonOptions sampleResume
    (by decide) rfl rfl (h.1.mpr (by decide)) rfl
  exact ⟨h.1.mpr (by decide), h3.1, h3.2⟩

/-- Dispatching each stream part to the callback and to the accumulator
extracts the same text channel: the `generating` payloads of
`processStream`'s events are exactly the stream's text deltas. -/
theorem processStream_filterMap_generating (rc : Reasoning) (s : List StreamPart) :
    (processStream rc s).filterMap generatingText = textDeltas s := by
  unfold processStream textDeltas
  rw [List.filterMap_filterMap]
  congr 1
  funext p
  cases p with
  | reasoningDelta t =>
    by_cases h : rc = Reasoning.none <;> simp [h, generatingText]
  | textDelta t => simp [generatingText]
  | otherPart => simp

/-- Every event `processStream` emits is a `reasoning` or a `generating`
event. -/
theorem mem_processStream_phase (rc : Reasoning) (s : List StreamPart)
    (p : Phase) (h : p ∈ eventPhases (processStream rc s)) :
    p = .reasoning ∨ p = .generating := by
  unfold eventPhases processStream at h
  rw [List.mem_map] at h
  obtain ⟨u, hu, hup⟩ := h
  rw [List.mem_filterMap] at hu
  obtain ⟨q, _, hq⟩ := hu
  cases q with
  | reasoningDelta t =>
    by_cases hrc : rc = Reasoning.none
    · simp [hrc] at hq
    · simp [hrc] at hq
      subst hq
      left
      exact hup.symm
  | textDelta t =>
    simp at hq
    subst hq
    right
    exact hup.symm
  | otherPart => simp at hq

/-- With `config.reasoning = 'none'`, every event `processStream` emits is
a `generating` event. -/
theorem mem_processStream_none_phase (s : List StreamPart) (p : Phase)
    (h : p ∈ eventPhases (processStream .none s)) : p = .generating := by
  unfold eventPhases processStream at h
  rw [List.mem_map] at h
  obtain ⟨u, hu, hup⟩ := h
  rw [List.mem_filterMap] at hu
  obtain ⟨q, _, hq⟩ := hu
  cases q with
  | reasoningDelta t => simp at hq
  | textDelta t =>
    simp at hq
    subst hq
    exact hup.symm
  | otherPart => simp at hq

/-- A run of repeatable stage-5 phases passes the legality scan from any
bound at most 5. -/
theorem legalFrom_stage5 (l : List Phase)
    (h5 : ∀ p ∈ l, stageOf p = 5 ∧ oneShot p = false)
    (cur : Nat) (hcur : cur ≤ 5) : legalFrom cur l = true := by
  induction l generalizing cur with
  | nil => rfl
  | cons p rest ih =>
    obtain ⟨hs, ho⟩ := h5 p (List.mem_cons_self p rest)
    simp only [legalFrom, hs, ho, if_false, Bool.ite_eq_true_distrib]
    simp only [Bool.and_eq_true, decide_eq_true_eq]
    exact ⟨le_trans hcur (by omega),
      ih (fun q hq => h5 q (List.mem_cons_of_mem p hq)) 5 le_rfl⟩

/-- A run of repeatable stage-5 phases closed by `complete` passes the
legality scan from any bound at most 5. -/
theorem legalFrom_stage5_complete (l : List Phase)
    (h5 : ∀ p ∈ l, stageOf p = 5 ∧ oneShot p = false)
    (cur : Nat) (hcur : cur ≤ 5) : legalFrom cur (l ++ [.complete]) = true := by
  induction l generalizing cur with
  | nil =>
    simp only [List.nil_append, legalFrom, stageOf, oneShot]
    simp only [Bool.and_eq_true, decide_eq_true_eq]
    exact ⟨by omega, trivial⟩
  | cons p rest ih =>
    obtain ⟨hs, ho⟩ := h5 p (List.mem_cons_self p rest)
    simp only [List.cons_append, legalFrom, hs, ho, if_false]
    simp only [Bool.and_eq_true, decide_eq_true_eq]
    exact ⟨le_trans hcur (by omega),
      ih (fun q hq => h5 q (List.mem_cons_of_mem p hq)) 5 le_rfl⟩

/-- Nothing passes the legality scan past `complete`: a legal sequence
splitting around a `complete` has an empty remainder. -/
theorem legalFrom_complete_last (l1 : List Phase) (cur : Nat) (l2 : List Phase)
    (h : legalFrom cur (l1 ++ .complete :: l2) = true) : l2 = [] := by
  induction l1 generalizing cur with
  | nil =>
    simp only [List.nil_append, legalFrom, stageOf, oneShot, if_true] at h
    rw [Bool.and_eq_true] at h
    cases l2 with
    | nil => rfl
    | cons p rest =>
      exfalso
      have h2 := h.2
      simp only [legalFrom, Bool.and_eq_true, decide_eq_true_eq] at h2
      have := h2.1
      cases p <;> simp [stageOf] at this
  | cons p l1 ih =>
    simp only [List.cons_append, legalFrom, Bool.and_eq_true] at h
    exact ih _ h.2

/-- The phases of the forwarded partial-object events are all `scoring`. -/
theorem map_phase_scoring (l : List ScoringData) :
    List.map ((fun x => x.phase) ∘ fun p =>
        (⟨Phase.scoring, some (ProgressData.scoringData p)⟩ : ProgressUpdate)) l =
      List.replicate l.length Phase.scoring := by
  induction l with
  | nil => rfl
  | cons a l ih => simp only [List.map_cons, List.length_cons, List.replicate_succ, ih]; rfl

/-- The complete case analysis of the phase traces `atsStream` can
deliver: nothing (no callback, or precondition failure), a prefix cut
short by a parse or collection failure, the narrative trace (with or
without its closing `complete`, depending on whether the token stream
ends cleanly), or the structured trace (with or without `complete`,
depending on whether generation succeeds). -/
theorem atsStream_phases_shape (env : Env) (rp jobUrl : String)
    (options : StreamOptions) :
    eventPhases (atsStream env rp jobUrl options).events = []
    ∨ eventPhases (atsStream env rp jobUrl options).events = [.parsing]
    ∨ eventPhases (atsStream env rp jobUrl options).events =
        [.parsing, .parsed, .scraping]
    ∨ (formatType options = .markdown ∧
        (eventPhases (atsStream env rp jobUrl options).events =
            [.parsing, .parsed, .scraping, .scraped, .analyzing] ++
            eventPhases (processStream (mergeConfig options.config).reasoning env.fullStream)
         ∨ eventPhases (atsStream env rp jobUrl options).events =
            [.parsing, .parsed, .scraping, .scraped, .analyzing] ++
            eventPhases (processStream (mergeConfig options.config).reasoning env.fullStream) ++
            [.complete]))
    ∨ (formatType options ≠ .markdown ∧
        (eventPhases (atsStream env rp jobUrl options).events =
            [.parsing, .parsed, .scraping, .scraped, .scoring] ++
            List.replicate env.partialObjects.length .scoring
         ∨ eventPhases (atsStream env rp jobUrl options).events =
            [.parsing, .parsed, .scraping, .scraped, .scoring] ++
            List.replicate env.partialObjects.length .scoring ++ [.complete])) := by
  cases hkey : truthyStr (resolveKey options.firecrawlKey env.firecrawlApiKey) with
  | false =>
    left
    simp [atsStream, eventPhases, hkey]
  | true =>
    cases hp : env.parseResult with
    | error e =>
      cases hop : options.onProgress with
      | false => left; simp [atsStream, eventPhases, hkey, hp, hop, emit]
      | true => right; left; simp [atsStream, eventPhases, hkey, hp, hop, emit]
    | ok resume =>
      cases hs : env.scrapeResult with
      | error e =>
        cases hop : options.onProgress with
        | false => left; simp [atsStream, eventPhases, hkey, hp, hs, hop, emit]
        | true =>
          right; right; left
          simp [atsStream, eventPhases, hkey, hp, hs, hop, emit]
      | ok res =>
        cases hsc : scrape jobUrl res with
        | error e =>
          cases hop : options.onProgress with
          | false => left; simp [atsStream, eventPhases, hkey, hp, hs, hsc, hop, emit]
          | true =>
            right; right; left
            simp [atsStream, eventPhases, hkey, hp, hs, hsc, hop, emit]
        | ok job =>
          by_cases hfmt : formatType options = .markdown
          · cases hso : env.streamOutcome with
            | error e =>
              cases hop : options.onProgress with
              | false =>
                left
                simp [atsStream, eventPhases, hkey, hp, hs, hsc, hfmt, hso, hop, emit]
              | true =>
                right; right; right; left
                refine ⟨hfmt, Or.inl ?_⟩
                simp [atsStream, eventPhases, hkey, hp, hs, hsc, hfmt, hso, hop, emit]
            | ok u =>
              cases hop : options.onProgress with
              | false =>
                left
                simp [atsStream, eventPhases, hkey, hp, hs, hsc, hfmt, hso, hop, emit]
              | true =>
                right; right; right; left
                refine ⟨hfmt, Or.inr ?_⟩
                simp [atsStream, eventPhases, hkey, hp, hs, hsc, hfmt, hso, hop, emit]
          · cases hobj : env.objectOutcome with
            | ok sc =>
              cases hop : options.onProgress with
              | false =>
                left
                simp [atsStream, eventPhases, hkey, hp, hs, hsc, hfmt, hobj, hop, emit,
                  analyzeStream, map_phase_scoring]
              | true =>
                right; right; right; right
                refine ⟨hfmt, Or.inr ?_⟩
                simp [atsStream, eventPhases, hkey, hp, hs, hsc, hfmt, hobj, hop, emit,
                  analyzeStream, map_phase_scoring]
            | error e =>
              cases hgen : env.generateOutcome with
              | ok sc =>
                cases hop : options.onProgress with
                | false =>
                  left
                  simp [atsStream, eventPhases, hkey, hp, hs, hsc, hfmt, hobj, hgen, hop,
                    emit, analyzeStream, analyze, map_phase_scoring]
                | true =>
                  right; right; right; right
                  refine ⟨hfmt, Or.inr ?_⟩
                  simp [atsStream, eventPhases, hkey, hp, hs, hsc, hfmt, hobj, hgen, hop,
                    emit, analyzeStream, analyze, map_phase_scoring]
              | error e2 =>
                cases hop : options.onProgress with
                | false =>
                  left
                  simp [atsStream, eventPhases, hkey, hp, hs, hsc, hfmt, hobj, hgen, hop,
                    emit, analyzeStream, analyze, map_phase_scoring]
                | true =>
                  right; right; right; right
                  refine ⟨hfmt, Or.inl ?_⟩
                  simp [atsStream, eventPhases, hkey, hp, hs, hsc, hfmt, hobj, hgen, hop,
                    emit, analyzeStream, analyze, map_phase_scoring]

/-- C3: in every invocation, the delivered phase names pass the §4.4
legality scan (a subsequence of the legal order: no `scoring` before
`scraped`, no `complete` before `analyzing`/`scoring`), and no event of
any phase follows a `complete` event. -/
theorem atsStream_trace_legal (env : Env) (rp jobUrl : String)
    (options : StreamOptions) :
    legalTrace (eventPhases (atsStream env rp jobUrl options).events) = true
    ∧ ∀ l1 l2, eventPhases (atsStream env rp jobUrl options).events =
        l1 ++ Phase.complete :: l2 → l2 = [] := by
  have h5md : ∀ p ∈ eventPhases
      (processStream (mergeConfig options.config).reasoning env.fullStream),
      stageOf p = 5 ∧ oneShot p = false := by
    intro p hp
    rcases mem_processStream_phase _ _ p hp with h | h <;> subst h <;> exact ⟨rfl, rfl⟩
  have h5sc : ∀ p ∈ List.replicate env.partialObjects.length Phase.scoring,
      stageOf p = 5 ∧ oneShot p = false := by
    intro p hp
    rw [List.eq_of_mem_replicate hp]
    exact ⟨rfl, rfl⟩
  have hleg : legalTrace (eventPhases (atsStream env rp jobUrl options).events) = true := by
    rcases atsStream_phases_shape env rp jobUrl options with
      h | h | h | ⟨_, h | h⟩ | ⟨_, h | h⟩ <;> rw [h]
    · rfl
    · rfl
    · rfl
    · show legalFrom 0 _ = true
      simp only [List.cons_append, List.nil_append, legalFrom, stageOf, oneShot,
        if_true, Bool.and_eq_true, decide_eq_true_eq]
      refine ⟨by omega, by omega, by omega, by omega, by omega, ?_⟩
      exact legalFrom_stage5 _ h5md _ (by decide)
    · show legalFrom 0 _ = true
      simp only [List.append_assoc, List.cons_append, List.nil_append, legalFrom,
        stageOf, oneShot, if_true, Bool.and_eq_true, decide_eq_true_eq]
      refine ⟨by omega, by omega, by omega, by omega, by omega, ?_⟩
      exact legalFrom_stage5_complete _ h5md _ (by decide)
    · show legalFrom 0 _ = true
      simp only [List.cons_append, List.nil_append, legalFrom, stageOf, oneShot,
        if_true, Bool.and_eq_true, decide_eq_true_eq]
      refine ⟨by omega, by omega, by omega, by omega, by omega, ?_⟩
      exact legalFrom_stage5 _ h5sc _ (by decide)
    · show legalFrom 0 _ = true
      simp only [List.append_assoc, List.cons_append, List.nil_append, legalFrom,
        stageOf, oneShot, if_true, Bool.and_eq_true, decide_eq_true_eq]
      refine ⟨by omega, by omega, by omega, by omega, by omega, ?_⟩
      exact legalFrom_stage5_complete _ h5sc _ (by decide)
  refine ⟨hleg, fun l1 l2 hsplit => ?_⟩
  apply legalFrom_complete_last l1 0 l2
  rw [← hsplit]
  exact hleg

/-- C3 witness: the legality scan accepts a concrete full narrative
trace, and splitting that trace around its `complete` leaves nothing
after it. -/
theorem atsStream_trace_legal_witness :
    legalTrace (eventPhases (atsStream envMd "resume.pdf" "https://j" mdOptions).events) =
      true
    ∧ ([] : List Phase) = [] :=
  ⟨(atsStream_trace_legal envMd "resume.pdf" "https://j" mdOptions).1,
   (atsStream_trace_legal envMd "resume.pdf" "https://j" mdOptions).2
     [.parsing, .parsed, .scraping, .scraped, .analyzing, .generating, .generating] []
     (by decide)⟩

/-- C4 counterexample: a narrative (markdown) invocation does emit an
`analyzing` event, refuting the claim that only structured invocations
do. -/
theorem atsStream_markdown_emits_analyzing :
    formatType mdOptions = .markdown
    ∧ (⟨.analyzing, none⟩ : ProgressUpdate) ∈
        (atsStream envMd "resume.pdf" "https://j" mdOptions).events := by
  decide

/-- C4 (amended): the `analyzing` event is emitted only by narrative
(markdown) invocations, where it marks the transition before token
streaming starts; structured (json/xml) invocations never emit
`analyzing` (they emit `scoring` directly). -/
theorem atsStream_analyzing_only_markdown (env : Env) (rp jobUrl : String)
    (options : StreamOptions) (hfmt : formatType options ≠ .markdown) :
    ∀ u ∈ (atsStream env rp jobUrl options).events, u.phase ≠ .analyzing := by
  intro u hu hphase
  have hm : u.phase ∈ eventPhases (atsStream env rp jobUrl options).events :=
    List.mem_map_of_mem _ hu
  rw [hphase] at hm
  rcases atsStream_phases_shape env rp jobUrl options with
    h | h | h | ⟨hmd, _⟩ | ⟨_, h | h⟩
  · rw [h] at hm; simp at hm
  · rw [h] at hm; simp at hm
  · rw [h] at hm; simp at hm
  · exact hfmt hmd
  · rw [h] at hm
    simp [List.mem_replicate] at hm
  · rw [h] at hm
    simp [List.mem_replicate] at hm

/-- C4 witness: a concrete structured run delivers no `analyzing`
event. -/
theorem atsStream_analyzing_only_markdown_witness :
    formatType jsonOptions ≠ .markdown
    ∧ ∀ u ∈ (atsStream envStFail "resume.pdf" "https://j" jsonOptions).events,
        u.phase ≠ .analyzing :=
  ⟨by decide,
   atsStream_analyzing_only_markdown envStFail "resume.pdf" "https://j" jsonOptions
     (by decide)⟩

/-- C5: with the merged `config.reasoning = 'none'`, no `reasoning`-phase
event is ever delivered, whatever reasoning deltas the collaborator's
stream carries. -/
theorem atsStream_reasoning_none_no_reasoning_events (env : Env)
    (rp jobUrl : String) (options : StreamOptions)
    (hr : (mergeConfig options.config).reasoning = .none) :
    ∀ u ∈ (atsStream env rp jobUrl options).events, u.phase ≠ .reasoning := by
  intro u hu hphase
  have hm : u.phase ∈ eventPhases (atsStream env rp jobUrl options).events :=
    List.mem_map_of_mem _ hu
  rw [hphase] at hm
  rcases atsStream_phases_shape env rp jobUrl options with
    h | h | h | ⟨_, h | h⟩ | ⟨_, h | h⟩ <;> rw [h] at hm
  · simp at hm
  · simp at hm
  · simp at hm
  · rw [hr] at hm
    simp at hm
    exact absurd (mem_processStream_none_phase _ _ hm) (by decide)
  · rw [hr] at hm
    simp at hm
    exact absurd (mem_processStream_none_phase _ _ hm) (by decide)
  · simp [List.mem_replicate] at hm
  · simp [List.mem_replicate] at hm

/-- C5 witness: a concrete run whose stream carries a reasoning delta,
under the default (`none`) reasoning config, delivers no `reasoning`
event. -/
theorem atsStream_reasoning_none_no_reasoning_events_witness :
    (mergeConfig mdOptions.config).reasoning = .none
    ∧ ∀ u ∈ (atsStream envMd "resume.pdf" "https://j" mdOptions).events,
        u.phase ≠ .reasoning :=
  ⟨by decide,
   atsStream_reasoning_none_no_reasoning_events envMd "resume.pdf" "https://j" mdOptions
     (by decide)⟩

/-- C1: in narrative (markdown) mode, the returned string is exactly the
concatenation, in arrival order, of the `data.text` payloads of the
`generating`-phase events of the invocation (reasoning payloads
excluded). -/
theorem atsStream_narrative_accumulation (env : Env) (rp jobUrl : String)
    (options : StreamOptions) (r : String)
    (hfmt : formatType options = .markdown)
    (hop : options.onProgress = true)
    (hres : (atsStream env rp jobUrl options).result = .ok r) :
    ((atsStream env rp jobUrl options).events.filterMap generatingText).foldl
      (· ++ ·) "" = r := by
  cases hkey : truthyStr (resolveKey options.firecrawlKey env.firecrawlApiKey) with
  | false => simp [atsStream, hkey] at hres
  | true =>
    cases hp : env.parseResult with
    | error e => simp [atsStream, hkey, hp] at hres
    | ok resume =>
      cases hs : env.scrapeResult with
      | error e => simp [atsStream, hkey, hp, hs] at hres
      | ok res =>
        cases hsc : scrape jobUrl res with
        | error e => simp [atsStream, hkey, hp, hs, hsc] at hres
        | ok job =>
          cases hso : env.streamOutcome with
          | error e => simp [atsStream, hkey, hp, hs, hsc, hfmt, hso] at hres
          | ok u =>
            simp only [atsStream, hkey, hp, hs, hsc, hfmt, hso, hop, emit,
              Bool.not_true, Bool.false_eq_true, if_false, if_true, ite_true] at hres ⊢
            simp only [Except.ok.injEq] at hres
            rw [← hres]
            simp [List.filterMap_append, processStream_filterMap_generating,
              generatingText]

/-- C1 witness: concrete narrative run with an interleaved stream. -/
theorem atsStream_narrative_accumulation_witness :
    (atsStream envMd "resume.pdf" "https://j" mdOptions).result = .ok "Hello world"
    ∧ ((atsStream envMd "resume.pdf" "https://j" mdOptions).events.filterMap
        generatingText).foldl (· ++ ·) "" = "Hello world" :=
  ⟨by decide,
   atsStream_narrative_accumulation envMd "resume.pdf" "https://j" mdOptions
     "Hello world" (by decide) (by decide) (by decide)⟩

/-- Re-merging a fully populated configuration is the identity. -/
theorem mergeConfig_toConfig (c : ConfigR) : mergeConfig c.toConfig = c := rfl

/-- C2: in structured mode, when the partial-object stream fails, the
engine issues exactly one non-streaming fallback request, built from the
same prompt and the same merged model/verbosity configuration as the
streaming request; if the fallback also fails the invocation rejects with
the `AnalysisError` wrapping the underlying cause and no `complete` event
is emitted (and — per the single fallback op — no second fallback is
attempted); if the fallback succeeds the invocation returns its rendered
`Score`. -/
theorem analyzeStream_single_fallback (env : Env) (rp jobUrl : String)
    (options : StreamOptions) (resume : Resume) (res : ScrapeResponse) (job : Job)
    (e : String)
    (hfmt : formatType options ≠ .markdown)
    (hkey : truthyStr (resolveKey options.firecrawlKey env.firecrawlApiKey) = true)
    (hp : env.parseResult = .ok resume)
    (hs : env.scrapeResult = .ok res)
    (hsc : scrape jobUrl res = .ok job)
    (hobj : env.objectOutcome = .error e) :
    (atsStream env rp jobUrl options).ops.filter isStreamObjectOp =
      [.aiStreamObject (mergeConfig options.config).model
        (mergeConfig options.config).verbosity (prompt resume.text job)]
    ∧ (atsStream env rp jobUrl options).ops.filter isGenerateObjectOp =
      [.aiGenerateObject (mergeConfig options.config).model
        (mergeConfig options.config).verbosity (prompt resume.text job)]
    ∧ (∀ e2, env.generateOutcome = .error e2 →
        (atsStream env rp jobUrl options).result =
          .error (.analysis (analysisFailureMsg e2))
        ∧ ∀ u ∈ (atsStream env rp jobUrl options).events, u.phase ≠ .complete)
    ∧ (∀ sc, env.generateOutcome = .ok sc →
        (atsStream env rp jobUrl options).result =
          .ok (render sc (formatType options))) := by
  have hops : (atsStream env rp jobUrl options).ops =
      [Op.readFile, Op.scrapeCall (options.maxAge.getD 3600000),
       Op.aiStreamObject (mergeConfig options.config).model
         (mergeConfig options.config).verbosity (prompt resume.text job),
       Op.aiGenerateObject (mergeConfig options.config).model
         (mergeConfig options.config).verbosity (prompt resume.text job)] := by
    cases hgen : env.generateOutcome <;>
      simp [atsStream, analyzeStream, analyze, mergeConfig_toConfig,
        hkey, hp, hs, hsc, hfmt, hobj, hgen, emit]
  refine ⟨?_, ?_, ?_, ?_⟩
  · rw [hops]
    simp [List.filter_cons, isStreamObjectOp, isGenerateObjectOp]
  · rw [hops]
    simp [List.filter_cons, isStreamObjectOp, isGenerateObjectOp]
  · intro e2 hgen
    constructor
    · simp [atsStream, analyzeStream, analyze, mergeConfig_toConfig,
        hkey, hp, hs, hsc, hfmt, hobj, hgen, emit]
    · intro u hu hph
      cases hop : options.onProgress with
      | false =>
        simp [atsStream, analyzeStream, analyze, mergeConfig_toConfig,
          hkey, hp, hs, hsc, hfmt, hobj, hgen, hop, emit] at hu
      | true =>
        simp [atsStream, analyzeStream, analyze, mergeConfig_toConfig,
          hkey, hp, hs, hsc, hfmt, hobj, hgen, hop, emit] at hu
        rcases hu with rfl | rfl | rfl | rfl | rfl | hmem
        · simp at hph
        · simp at hph
        · simp at hph
        · simp at hph
        · simp at hph
        · obtain ⟨p, _, hpu⟩ := hmem
          rw [← hpu] at hph
          simp at hph
  · intro sc hgen
    simp [atsStream, analyzeStream, analyze, mergeConfig_toConfig,
      hkey, hp, hs, hsc, hfmt, hobj, hgen, emit]

/-- C2 witness: concrete structured run whose stream and fallback both
fail: one fallback op, `AnalysisError` rejection. -/
theorem analyzeStream_single_fallback_witness :
    (atsStream envStFail "resume.pdf" "https://j" jsonOptions).ops.filter
      isGenerateObjectOp =
      [.aiGenerateObject (mergeConfig jsonOptions.config).model
        (mergeConfig jsonOptions.config).verbosity (prompt sampleResume.text scrapedJob)]
    ∧ (atsStream envStFail "resume.pdf" "https://j" jsonOptions).result =
      .error (.analysis (analysisFailureMsg "fallback failed")) := by
  have h := analyzeStream_single_fallback envStFail "resume.pdf" "https://j"
    jsonOptions sampleResume sampleResponse scrapedJob "stream failed"
    (by decide) (by decide) rfl rfl (by decide) rfl
  exact ⟨h.2.1, (h.2.2.1 "fallback failed" rfl).1⟩

/-- C9 counterexample: with the AI-service credential absent from the
environment (and no way to pass it as a call option), the invocation does
not fail with a precondition error before I/O — it reads the resume,
scrapes the job and completes. -/
theorem atsStream_missing_openai_key_still_runs :
    envMd.openaiApiKey = none
    ∧ Op.readFile ∈ (atsStream envMd "resume.pdf" "https://j" mdOptions).ops
    ∧ (atsStream envMd "resume.pdf" "https://j" mdOptions).result = .ok "Hello world" := by
  decide

/-- C9 (amended): when the scraping-service credential is resolvable
neither from the explicit call option nor from the process environment,
`ats` and `atsStream` fail with the precondition error before any
collaborator call and before any event; the AI-service credential is not
precondition-checked by these entry points. -/
theorem missing_firecrawl_key_precondition (env : Env) (rp jobUrl : String)
    (sopts : StreamOptions) (aopts : AtsOptions)
    (h1 : truthyStr (resolveKey sopts.firecrawlKey env.firecrawlApiKey) = false)
    (h2 : truthyStr (resolveKey aopts.firecrawlKey env.firecrawlApiKey) = false) :
    atsStream env rp jobUrl sopts =
      { events := [], ops := [],
        result := .error (.precondition "FIRECRAWL_API_KEY required") }
    ∧ ats env rp jobUrl aopts =
      ([], .error (.precondition "FIRECRAWL_API_KEY required")) := by
  constructor
  · simp [atsStream, h1]
  · simp [ats, h2]

/-- C9 witness: concrete keyless environment, both entry points. -/
theorem missing_firecrawl_key_precondition_witness :
    truthyStr (resolveKey mdOptions.firecrawlKey envNoKeys.firecrawlApiKey) = false
    ∧ (atsStream envNoKeys "resume.pdf" "https://j" mdOptions).ops = []
    ∧ (atsStream envNoKeys "resume.pdf" "https://j" mdOptions).result =
        .error (.precondition "FIRECRAWL_API_KEY required")
    ∧ (ats envNoKeys "resume.pdf" "https://j" plainAtsOptions).1 = [] := by
  have h := missing_firecrawl_key_precondition envNoKeys "resume.pdf" "https://j"
    mdOptions plainAtsOptions (by decide) (by decide)
  refine ⟨by decide, ?_, ?_, ?_⟩
  · rw [h.1]
  · rw [h.1]
  · rw [h.2]

end Jobheist
